import Mathlib

/-!
Shallow embedding of the voice-conversation client in `App.tsx`
(the single React component of the repository).

The component state (React `useState` values and `useRef` cells) is
modelled as one record `AppState`.  The event handlers
(`stopSession`, `handleNewSession`, the live-session callbacks
`onopen` and `onmessage`) become pure functions on that record.

Modelling conventions:
* JS strings are Lean `String`s (transcript accumulation uses `++`,
  `String.prototype.trim` becomes `String.trim`).
* `AudioContext.currentTime` and audio-buffer durations are rationals.
  The current time observed while scheduling an audio fragment, and
  the decode result of that fragment, are inputs: every inline audio
  payload carries the observed `now` and `decoded` (the buffer
  duration on success, `none` when `decodeAudioData` rejects).
* `AudioBufferSourceNode`s live in an arena `sources` keyed by a
  fresh numeric id; `source.stop()` sets the `stopped` flag.  The set
  `audioPlaybackSources` holds the ids of the tracked nodes.
* Refs that the claims only test for null-ness (`streamRef`,
  `scriptProcessorRef`, `mediaStreamSourceRef`, `aiRef`) are
  `Option Unit`; the session promise carries a numeric session id so
  that freshness is expressible.
* An `AudioContext` ref is `Option CtxState`: `some .running` is an
  open context, `some .closed` a closed-but-referenced one (the code
  guards `state !== closed` and then also skips nulling the ref).
* A rejected `await decodeAudioData` aborts the rest of the async
  `onmessage` body: `processParts` returns an `aborted` flag and
  `onmessage` skips the `interrupted` check when it is set.
-/

namespace Coach

inductive Role
  | user
  | ai
deriving DecidableEq

structure Message where
  role : Role
  content : String
deriving DecidableEq

inductive CtxState
  | running
  | closed
deriving DecidableEq

structure AudioSource where
  id : Nat
  startTime : ℚ
  duration : ℚ
  stopped : Bool
deriving DecidableEq

structure AudioPayload where
  now : ℚ
  decoded : Option ℚ
deriving DecidableEq

structure InlinePart where
  inlineData : Option AudioPayload
deriving DecidableEq

/-- The fields of a `LiveServerMessage.serverContent` that `onmessage` reads. -/
structure ServerMessage where
  inputTranscription : Option String
  outputTranscription : Option String
  turnComplete : Bool
  parts : Option (List InlinePart)
  interrupted : Bool
deriving DecidableEq

structure AppState where
  messages : List Message
  currentUserTranscription : String
  currentTutorTranscription : String
  displayUserTranscription : String
  displayTutorTranscription : String
  isSessionActive : Bool
  statusMessage : String
  isApiKeyModalOpen : Bool
  ai : Option Unit
  sessionPromise : Option Nat
  stream : Option Unit
  inputAudioContext : Option CtxState
  outputAudioContext : Option CtxState
  scriptProcessor : Option Unit
  mediaStreamSource : Option Unit
  nextStartTime : ℚ
  audioPlaybackSources : List Nat
  sources : List AudioSource
  nextSourceId : Nat
deriving DecidableEq

/-- Initial component state (the `useState` / `useRef` initial values). -/
def initState : AppState :=
  { messages := []
    currentUserTranscription := ""
    currentTutorTranscription := ""
    displayUserTranscription := ""
    displayTutorTranscription := ""
    isSessionActive := false
    statusMessage := "Please set your API Key to begin."
    isApiKeyModalOpen := false
    ai := none
    sessionPromise := none
    stream := none
    inputAudioContext := none
    outputAudioContext := none
    scriptProcessor := none
    mediaStreamSource := none
    nextStartTime := 0
    audioPlaybackSources := []
    sources := []
    nextSourceId := 0 }

/-- JS `String.prototype.trim`: remove leading and trailing whitespace.
Written on the character list so that it evaluates by kernel reduction. -/
def trimString (s : String) : String :=
  ⟨((s.data.dropWhile Char.isWhitespace).reverse.dropWhile Char.isWhitespace).reverse⟩

/-- Models `ctx.state !== closed ? (ctx.close(); ref = null) : keep the ref`. -/
def closeCtx : Option CtxState → Option CtxState
  | some CtxState.running => none
  | some CtxState.closed => some CtxState.closed
  | none => none

/-- Models `audioPlaybackSources.current.forEach(source => source.stop())` on the arena. -/
def stopTracked (tracked : List Nat) (arena : List AudioSource) : List AudioSource :=
  arena.map fun src => if src.id ∈ tracked then { src with stopped := true } else src

/-- The `stopSession` callback (App.tsx lines 117-147). -/
def stopSession (s : AppState) : AppState :=
  { s with
    stream := none
    scriptProcessor := none
    mediaStreamSource := none
    inputAudioContext := closeCtx s.inputAudioContext
    sessionPromise := none
    sources := stopTracked s.audioPlaybackSources s.sources
    audioPlaybackSources := []
    outputAudioContext := closeCtx s.outputAudioContext
    nextStartTime := 0
    isSessionActive := false
    statusMessage := "Session ended. Click the microphone to practice again." }

/-- Models `currentUserTranscriptionRef.current += text; setDisplayUserTranscription(...)`. -/
def appendUserFragment (t : String) (s : AppState) : AppState :=
  { s with
    currentUserTranscription := s.currentUserTranscription ++ t
    displayUserTranscription := s.currentUserTranscription ++ t }

/-- Models `currentTutorTranscriptionRef.current += text; setDisplayTutorTranscription(...)`. -/
def appendTutorFragment (t : String) (s : AppState) : AppState :=
  { s with
    currentTutorTranscription := s.currentTutorTranscription ++ t
    displayTutorTranscription := s.currentTutorTranscription ++ t }

/-- The `turnComplete` branch of `onmessage` (App.tsx lines 206-218). -/
def handleTurnComplete (s : AppState) : AppState :=
  let userText := trimString s.currentUserTranscription
  let tutorText := trimString s.currentTutorTranscription
  let newMessages : List Message :=
    (if userText = "" then [] else [{ role := Role.user, content := userText }]) ++
    (if tutorText = "" then [] else [{ role := Role.ai, content := tutorText }])
  { s with
    messages := if newMessages.isEmpty then s.messages else s.messages ++ newMessages
    currentUserTranscription := ""
    currentTutorTranscription := ""
    displayUserTranscription := ""
    displayTutorTranscription := "" }

/-- The transcript part of `onmessage` (App.tsx lines 198-218), in source order:
input transcription, output transcription, turn completion. -/
def handleTranscripts (m : ServerMessage) (s : AppState) : AppState :=
  let s1 := match m.inputTranscription with
    | some t => appendUserFragment t s
    | none => s
  let s2 := match m.outputTranscription with
    | some t => appendTutorFragment t s1
    | none => s1
  if m.turnComplete then handleTurnComplete s2 else s2

/-- Creating, connecting and starting one `AudioBufferSourceNode` at the cursor,
then advancing the cursor and tracking the node (App.tsx lines 229-235). -/
def addSource (dur : ℚ) (s : AppState) : AppState :=
  let src : AudioSource :=
    { id := s.nextSourceId, startTime := s.nextStartTime, duration := dur, stopped := false }
  { s with
    sources := s.sources ++ [src]
    audioPlaybackSources := s.audioPlaybackSources ++ [s.nextSourceId]
    nextStartTime := s.nextStartTime + dur
    nextSourceId := s.nextSourceId + 1 }

/-- The `for (const part of parts)` loop (App.tsx lines 222-237).  For each part
with inline audio the cursor is first raised to the observed current time,
then the payload is decoded; a failed decode rejects the async handler, so the
loop and the rest of the handler stop there (`true` in the result flag). -/
def processParts : List InlinePart → AppState → AppState × Bool
  | [], s => (s, false)
  | p :: rest, s =>
    match p.inlineData with
    | none => processParts rest s
    | some pay =>
      let s1 := { s with nextStartTime := max s.nextStartTime pay.now }
      match pay.decoded with
      | none => (s1, true)
      | some dur => processParts rest (addSource dur s1)

/-- The `interrupted` branch of `onmessage` (App.tsx lines 240-244). -/
def handleInterrupted (s : AppState) : AppState :=
  { s with
    sources := stopTracked s.audioPlaybackSources s.sources
    audioPlaybackSources := []
    nextStartTime := 0 }

/-- The whole `onmessage` callback (App.tsx lines 197-245). -/
def onmessage (m : ServerMessage) (s : AppState) : AppState :=
  let s3 := handleTranscripts m s
  let pr := processParts (m.parts.getD []) s3
  if pr.2 then pr.1
  else if m.interrupted then handleInterrupted pr.1 else pr.1

/-- Folding a stream of server messages through `onmessage`. -/
def runMessages (ms : List ServerMessage) (s : AppState) : AppState :=
  ms.foldl (fun st m => onmessage m st) s

/-- The `handleNewSession` callback (App.tsx lines 149-262) up to the point where the
callbacks are installed.  `sid` is the fresh id of the session promise the
connect call would produce; `ok` tells whether the `try` block reaches the
assignment of `sessionPromiseRef` (its `catch` sets the failure status). -/
def handleNewSession (s0 : AppState) (sid : Nat) (ok : Bool) : AppState :=
  let s := if s0.isSessionActive then stopSession s0 else s0
  if s.ai = none then
    { s with
      statusMessage := "API Key not set. Please set it in the settings."
      isApiKeyModalOpen := true }
  else
    let s1 := { s with
      messages := []
      displayUserTranscription := ""
      displayTutorTranscription := ""
      currentUserTranscription := ""
      currentTutorTranscription := ""
      statusMessage := "Connecting to tutor..." }
    let s2 := { s1 with
      inputAudioContext := some CtxState.running
      outputAudioContext := some CtxState.running }
    if ok then { s2 with sessionPromise := some sid }
    else { s2 with
      statusMessage := "Failed to start session. Check your API key or connection."
      isSessionActive := false }

/-- The `onopen` callback (App.tsx lines 170-195): activate the session, then
request the microphone; on denial set the status and run `stopSession`. -/
def onopenHandler (micGranted : Bool) (s : AppState) : AppState :=
  let s1 := { s with
    isSessionActive := true
    statusMessage := "Connected! Start speaking when you are ready." }
  if micGranted then
    { s1 with
      stream := some ()
      mediaStreamSource := some ()
      scriptProcessor := some () }
  else
    stopSession { s1 with
      statusMessage := "Microphone access denied. Please allow permission." }

/-! Helper lemmas -/

theorem closeCtx_closeCtx (c : Option CtxState) : closeCtx (closeCtx c) = closeCtx c := by
  rcases c with _ | c
  · rfl
  · cases c <;> rfl

theorem stopTracked_nil (arena : List AudioSource) : stopTracked [] arena = arena := by
  simp [stopTracked]

/-! Claim theorems: session lifecycle -/

/-- Claim C4: `stopSession` is idempotent — running the stop sequence a second
time from the state the first run produced changes nothing (all resources
already released, session handle null, tracked set empty, cursor zero, session
inactive), and the model of the second call is total, so it raises no error. -/
theorem stopSession_idempotent (s : AppState) :
    stopSession (stopSession s) = stopSession s := by
  cases s
  simp [stopSession, closeCtx_closeCtx, stopTracked_nil]

/-- Claim C8: `stopSession` leaves the conversation transcript alone — the
finalized message log, both per-speaker accumulators and both live-display
values are exactly what they were before the call. -/
theorem stopSession_preserves_transcript (s : AppState) :
    (stopSession s).messages = s.messages ∧
    (stopSession s).currentUserTranscription = s.currentUserTranscription ∧
    (stopSession s).currentTutorTranscription = s.currentTutorTranscription ∧
    (stopSession s).displayUserTranscription = s.displayUserTranscription ∧
    (stopSession s).displayTutorTranscription = s.displayTutorTranscription := by
  simp [stopSession]

/-- Claim C10: the `interrupted` branch mutates only playback state: it stops
the tracked buffers, empties the tracked set and zeroes the cursor, while the
finalized message log, both per-speaker accumulators, the live-display values,
the session handle and the session-active flag are unchanged. -/
theorem handleInterrupted_frame (s : AppState) :
    (handleInterrupted s).audioPlaybackSources = [] ∧
    (handleInterrupted s).nextStartTime = 0 ∧
    (handleInterrupted s).sources = stopTracked s.audioPlaybackSources s.sources ∧
    (handleInterrupted s).messages = s.messages ∧
    (handleInterrupted s).currentUserTranscription = s.currentUserTranscription ∧
    (handleInterrupted s).currentTutorTranscription = s.currentTutorTranscription ∧
    (handleInterrupted s).displayUserTranscription = s.displayUserTranscription ∧
    (handleInterrupted s).displayTutorTranscription = s.displayTutorTranscription ∧
    (handleInterrupted s).sessionPromise = s.sessionPromise ∧
    (handleInterrupted s).isSessionActive = s.isSessionActive ∧
    (handleInterrupted s).statusMessage = s.statusMessage ∧
    (handleInterrupted s).stream = s.stream ∧
    (handleInterrupted s).inputAudioContext = s.inputAudioContext ∧
    (handleInterrupted s).outputAudioContext = s.outputAudioContext := by
  simp [handleInterrupted]

/-- A sample state as produced by the connect path of `handleNewSession`:
credential present, both audio contexts freshly opened, session promise
installed.  Used to instantiate theorems about the open-session callbacks. -/
def connectingState : AppState :=
  { initState with
    ai := some ()
    inputAudioContext := some CtxState.running
    outputAudioContext := some CtxState.running
    sessionPromise := some 0
    statusMessage := "Connecting to tutor..." }

/-- Claim C7: when the microphone request in `onopen` is denied, the handler
runs the full stop sequence, so no stream, capture node or audio context
remains: every resource ref is nulled, the tracked set is empty, the cursor is
zero, the session is inactive, and the resulting state is a fixed point of
`stopSession` (the teardown is complete). -/
theorem mic_denied_teardown (s : AppState)
    (hin : s.inputAudioContext ≠ some CtxState.closed)
    (hout : s.outputAudioContext ≠ some CtxState.closed) :
    (onopenHandler false s).stream = none ∧
    (onopenHandler false s).scriptProcessor = none ∧
    (onopenHandler false s).mediaStreamSource = none ∧
    (onopenHandler false s).inputAudioContext = none ∧
    (onopenHandler false s).outputAudioContext = none ∧
    (onopenHandler false s).sessionPromise = none ∧
    (onopenHandler false s).audioPlaybackSources = [] ∧
    (onopenHandler false s).nextStartTime = 0 ∧
    (onopenHandler false s).isSessionActive = false ∧
    stopSession (onopenHandler false s) = onopenHandler false s := by
  have hin' : closeCtx s.inputAudioContext = none := by
    rcases h : s.inputAudioContext with _ | c
    · rfl
    · cases c
      · rfl
      · exact absurd h hin
  have hout' : closeCtx s.outputAudioContext = none := by
    rcases h : s.outputAudioContext with _ | c
    · rfl
    · cases c
      · rfl
      · exact absurd h hout
  cases s
  simp_all [onopenHandler, stopSession, stopTracked_nil, closeCtx]

/-- Witness for C7 at the concrete connecting-state input. -/
theorem mic_denied_teardown_witness :
    (connectingState.inputAudioContext ≠ some CtxState.closed ∧
     connectingState.outputAudioContext ≠ some CtxState.closed) ∧
    ((onopenHandler false connectingState).stream = none ∧
     (onopenHandler false connectingState).scriptProcessor = none ∧
     (onopenHandler false connectingState).mediaStreamSource = none ∧
     (onopenHandler false connectingState).inputAudioContext = none ∧
     (onopenHandler false connectingState).outputAudioContext = none ∧
     (onopenHandler false connectingState).sessionPromise = none ∧
     (onopenHandler false connectingState).audioPlaybackSources = [] ∧
     (onopenHandler false connectingState).nextStartTime = 0 ∧
     (onopenHandler false connectingState).isSessionActive = false ∧
     stopSession (onopenHandler false connectingState) = onopenHandler false connectingState) :=
  ⟨⟨by decide, by decide⟩,
   mic_denied_teardown connectingState (by decide) (by decide)⟩

/-- Claim C6: starting a session while no AI client is initialized rejects
before any connection or audio context is opened: the status message asks for
the key, the credential modal opens, the fresh session id is never installed,
no audio context gets opened by the call, and the Connecting status is never
reached. -/
theorem start_without_credential (s : AppState) (sid : Nat) (ok : Bool)
    (hai : s.ai = none) (hfresh : s.sessionPromise ≠ some sid) :
    (handleNewSession s sid ok).statusMessage =
      "API Key not set. Please set it in the settings." ∧
    (handleNewSession s sid ok).isApiKeyModalOpen = true ∧
    (handleNewSession s sid ok).sessionPromise ≠ some sid ∧
    (s.inputAudioContext ≠ some CtxState.running →
      (handleNewSession s sid ok).inputAudioContext ≠ some CtxState.running) ∧
    (s.outputAudioContext ≠ some CtxState.running →
      (handleNewSession s sid ok).outputAudioContext ≠ some CtxState.running) ∧
    (handleNewSession s sid ok).statusMessage ≠ "Connecting to tutor..." := by
  have hstop : (if s.isSessionActive then stopSession s else s).ai = none := by
    split
    · simpa [stopSession] using hai
    · exact hai
  unfold handleNewSession
  rw [if_pos hstop]
  refine ⟨rfl, rfl, ?_, ?_, ?_,
    show ("API Key not set. Please set it in the settings." : String) ≠
      "Connecting to tutor..." by decide⟩
  · show (if s.isSessionActive then stopSession s else s).sessionPromise ≠ some sid
    split
    · simp [stopSession]
    · exact hfresh
  · show s.inputAudioContext ≠ some CtxState.running →
      (if s.isSessionActive then stopSession s else s).inputAudioContext ≠ some CtxState.running
    intro h
    split
    · show closeCtx s.inputAudioContext ≠ some CtxState.running
      rcases hc : s.inputAudioContext with _ | c
      · simp [closeCtx]
      · cases c
        · exact absurd hc h
        · simp [closeCtx]
    · exact h
  · show s.outputAudioContext ≠ some CtxState.running →
      (if s.isSessionActive then stopSession s else s).outputAudioContext ≠ some CtxState.running
    intro h
    split
    · show closeCtx s.outputAudioContext ≠ some CtxState.running
      rcases hc : s.outputAudioContext with _ | c
      · simp [closeCtx]
      · cases c
        · exact absurd hc h
        · simp [closeCtx]
    · exact h

/-- Witness for C6 at the initial state (no credential stored). -/
theorem start_without_credential_witness :
    (initState.ai = none ∧ initState.sessionPromise ≠ some 7) ∧
    ((handleNewSession initState 7 true).statusMessage =
      "API Key not set. Please set it in the settings." ∧
     (handleNewSession initState 7 true).isApiKeyModalOpen = true ∧
     (handleNewSession initState 7 true).sessionPromise ≠ some 7 ∧
     (initState.inputAudioContext ≠ some CtxState.running →
       (handleNewSession initState 7 true).inputAudioContext ≠ some CtxState.running) ∧
     (initState.outputAudioContext ≠ some CtxState.running →
       (handleNewSession initState 7 true).outputAudioContext ≠ some CtxState.running) ∧
     (handleNewSession initState 7 true).statusMessage ≠ "Connecting to tutor...") :=
  ⟨⟨by decide, by decide⟩,
   start_without_credential initState 7 true (by decide) (by decide)⟩

/-- Claim C9: starting a new session with a credential present resets the
conversation state: after `handleNewSession` (whether the connect call
succeeds or fails) the finalized message log is empty and both per-speaker
accumulators and live-display values are the empty string. -/
theorem new_session_resets_transcript (s : AppState) (sid : Nat) (ok : Bool)
    (hai : s.ai ≠ none) :
    (handleNewSession s sid ok).messages = [] ∧
    (handleNewSession s sid ok).currentUserTranscription = "" ∧
    (handleNewSession s sid ok).currentTutorTranscription = "" ∧
    (handleNewSession s sid ok).displayUserTranscription = "" ∧
    (handleNewSession s sid ok).displayTutorTranscription = "" := by
  have hstop : ¬ (if s.isSessionActive then stopSession s else s).ai = none := by
    split
    · simpa [stopSession] using hai
    · exact hai
  unfold handleNewSession
  rw [if_neg hstop]
  cases ok <;> simp

/-- Witness for C9 at a concrete state holding a credential and leftover
transcript content from an earlier session. -/
theorem new_session_resets_transcript_witness :
    ({ initState with
        ai := some ()
        messages := [{ role := Role.user, content := "old" }]
        currentUserTranscription := "left"
        displayUserTranscription := "left" } : AppState).ai ≠ none ∧
    ((handleNewSession { initState with
        ai := some ()
        messages := [{ role := Role.user, content := "old" }]
        currentUserTranscription := "left"
        displayUserTranscription := "left" } 3 true).messages = [] ∧
     (handleNewSession { initState with
        ai := some ()
        messages := [{ role := Role.user, content := "old" }]
        currentUserTranscription := "left"
        displayUserTranscription := "left" } 3 true).currentUserTranscription = "" ∧
     (handleNewSession { initState with
        ai := some ()
        messages := [{ role := Role.user, content := "old" }]
        currentUserTranscription := "left"
        displayUserTranscription := "left" } 3 true).currentTutorTranscription = "" ∧
     (handleNewSession { initState with
        ai := some ()
        messages := [{ role := Role.user, content := "old" }]
        currentUserTranscription := "left"
        displayUserTranscription := "left" } 3 true).displayUserTranscription = "" ∧
     (handleNewSession { initState with
        ai := some ()
        messages := [{ role := Role.user, content := "old" }]
        currentUserTranscription := "left"
        displayUserTranscription := "left" } 3 true).displayTutorTranscription = "") :=
  ⟨by decide,
   new_session_resets_transcript { initState with
      ai := some ()
      messages := [{ role := Role.user, content := "old" }]
      currentUserTranscription := "left"
      displayUserTranscription := "left" } 3 true (by decide)⟩

/-! Turn aggregation (claim C1) -/

/-- A server message carrying only a user transcript fragment. -/
def userFragMsg (t : String) : ServerMessage :=
  { inputTranscription := some t, outputTranscription := none,
    turnComplete := false, parts := none, interrupted := false }

/-- A server message carrying only a tutor transcript fragment. -/
def tutorFragMsg (t : String) : ServerMessage :=
  { inputTranscription := none, outputTranscription := some t,
    turnComplete := false, parts := none, interrupted := false }

/-- A server message carrying only the turn-complete signal. -/
def turnCompleteMsg : ServerMessage :=
  { inputTranscription := none, outputTranscription := none,
    turnComplete := true, parts := none, interrupted := false }

/-- A per-speaker fragment (`true` = user, `false` = tutor) as a message. -/
def fragMsg : Bool × String → ServerMessage
  | (true, t) => userFragMsg t
  | (false, t) => tutorFragMsg t

/-- Concatenation of the user fragments of an interleaved fragment sequence. -/
def userConcat : List (Bool × String) → String
  | [] => ""
  | (true, t) :: rest => t ++ userConcat rest
  | (false, _) :: rest => userConcat rest

/-- Concatenation of the tutor fragments of an interleaved fragment sequence. -/
def tutorConcat : List (Bool × String) → String
  | [] => ""
  | (true, _) :: rest => tutorConcat rest
  | (false, t) :: rest => t ++ tutorConcat rest

/-- The messages the spec says a turn-complete must emit: one message per
speaker whose trimmed accumulated text is non-empty, user before assistant. -/
def emittedMessages (u t : String) : List Message :=
  (if trimString u = "" then [] else [{ role := Role.user, content := trimString u }]) ++
  (if trimString t = "" then [] else [{ role := Role.ai, content := trimString t }])

theorem onmessage_userFrag (t : String) (s : AppState) :
    onmessage (userFragMsg t) s = appendUserFragment t s := rfl

theorem onmessage_tutorFrag (t : String) (s : AppState) :
    onmessage (tutorFragMsg t) s = appendTutorFragment t s := rfl

theorem onmessage_turnComplete (s : AppState) :
    onmessage turnCompleteMsg s = handleTurnComplete s := rfl

/-- Processing a sequence of fragment messages appends the per-speaker
concatenations to the accumulators and touches nothing but the accumulators
and the live-display values. -/
theorem runMessages_frags : ∀ (frags : List (Bool × String)) (s : AppState),
    ∃ du dt, runMessages (frags.map fragMsg) s =
      { s with
        currentUserTranscription := s.currentUserTranscription ++ userConcat frags
        currentTutorTranscription := s.currentTutorTranscription ++ tutorConcat frags
        displayUserTranscription := du
        displayTutorTranscription := dt }
  | [], s => ⟨s.displayUserTranscription, s.displayTutorTranscription, by
      cases s
      simp [runMessages, userConcat, tutorConcat, String.append_empty]⟩
  | (true, t) :: rest, s => by
      obtain ⟨du, dt, ih⟩ := runMessages_frags rest (appendUserFragment t s)
      refine ⟨du, dt, ?_⟩
      have h1 : runMessages (((true, t) :: rest).map fragMsg) s
          = runMessages (rest.map fragMsg) (appendUserFragment t s) := rfl
      rw [h1, ih]
      cases s
      simp [appendUserFragment, userConcat, tutorConcat, String.append_assoc]
  | (false, t) :: rest, s => by
      obtain ⟨du, dt, ih⟩ := runMessages_frags rest (appendTutorFragment t s)
      refine ⟨du, dt, ?_⟩
      have h1 : runMessages (((false, t) :: rest).map fragMsg) s
          = runMessages (rest.map fragMsg) (appendTutorFragment t s) := rfl
      rw [h1, ih]
      cases s
      simp [appendTutorFragment, userConcat, tutorConcat, String.append_assoc]

/-- Claim C1: any interleaved sequence of per-speaker fragments followed by a
turn-complete signal, starting from empty accumulators, appends to the
transcript log exactly the messages of the non-empty trimmed per-speaker
concatenations, user before assistant, and leaves both accumulators and both
live-display values empty (in particular, with no fragments nothing is
emitted and the next turn starts from clean accumulators). -/
theorem turn_aggregator_correct (s : AppState) (frags : List (Bool × String))
    (hu : s.currentUserTranscription = "") (ht : s.currentTutorTranscription = "") :
    (runMessages (frags.map fragMsg ++ [turnCompleteMsg]) s).messages
      = s.messages ++ emittedMessages (userConcat frags) (tutorConcat frags) ∧
    (runMessages (frags.map fragMsg ++ [turnCompleteMsg]) s).currentUserTranscription = "" ∧
    (runMessages (frags.map fragMsg ++ [turnCompleteMsg]) s).currentTutorTranscription = "" ∧
    (runMessages (frags.map fragMsg ++ [turnCompleteMsg]) s).displayUserTranscription = "" ∧
    (runMessages (frags.map fragMsg ++ [turnCompleteMsg]) s).displayTutorTranscription = "" := by
  obtain ⟨du, dt, hmid⟩ := runMessages_frags frags s
  have hsplit : runMessages (frags.map fragMsg ++ [turnCompleteMsg]) s
      = handleTurnComplete (runMessages (frags.map fragMsg) s) := by
    simp [runMessages, List.foldl_append]
    rfl
  rw [hsplit, hmid, hu, ht, String.empty_append, String.empty_append]
  refine ⟨?_, rfl, rfl, rfl, rfl⟩
  simp only [handleTurnComplete, emittedMessages]
  by_cases h1 : trimString (userConcat frags) = "" <;>
    by_cases h2 : trimString (tutorConcat frags) = "" <;>
      simp [h1, h2]

/-- Witness for C1: the spec scenario — user fragments "I go" and " to school"
then turn-complete, no tutor fragments, from the initial state. -/
theorem turn_aggregator_correct_witness :
    (initState.currentUserTranscription = "" ∧ initState.currentTutorTranscription = "") ∧
    ((runMessages ([(true, "I go"), (true, " to school")].map fragMsg
        ++ [turnCompleteMsg]) initState).messages
      = initState.messages ++
        emittedMessages (userConcat [(true, "I go"), (true, " to school")])
          (tutorConcat [(true, "I go"), (true, " to school")]) ∧
     (runMessages ([(true, "I go"), (true, " to school")].map fragMsg
        ++ [turnCompleteMsg]) initState).currentUserTranscription = "" ∧
     (runMessages ([(true, "I go"), (true, " to school")].map fragMsg
        ++ [turnCompleteMsg]) initState).currentTutorTranscription = "" ∧
     (runMessages ([(true, "I go"), (true, " to school")].map fragMsg
        ++ [turnCompleteMsg]) initState).displayUserTranscription = "" ∧
     (runMessages ([(true, "I go"), (true, " to school")].map fragMsg
        ++ [turnCompleteMsg]) initState).displayTutorTranscription = "") :=
  ⟨⟨rfl, rfl⟩,
   turn_aggregator_correct initState [(true, "I go"), (true, " to school")] rfl rfl⟩

/-- The spec scenario evaluated concretely: the transcript log gains exactly
one finalized user message reading "I go to school". -/
theorem turn_aggregator_scenario :
    emittedMessages (userConcat [(true, "I go"), (true, " to school")])
        (tutorConcat [(true, "I go"), (true, " to school")])
      = [{ role := Role.user, content := "I go to school" }] := by decide

/-! Playback scheduling (claims C2, C3, C5) -/

/-- The inline audio payloads of a part list (`part.inlineData?.data`). -/
def audioPayloads (ps : List InlinePart) : List AudioPayload :=
  ps.filterMap (fun p => p.inlineData)

/-- Every audio payload decodes, to a non-negative duration. -/
def AllDecode (ps : List InlinePart) : Prop :=
  ∀ pay ∈ audioPayloads ps, pay.decoded.isSome = true ∧ 0 ≤ pay.decoded.getD 0

instance (ps : List InlinePart) : Decidable (AllDecode ps) := by
  unfold AllDecode
  infer_instance

/-- The part loop never touches anything outside playback state. -/
theorem processParts_frame : ∀ (ps : List InlinePart) (s : AppState),
    (processParts ps s).1.messages = s.messages ∧
    (processParts ps s).1.currentUserTranscription = s.currentUserTranscription ∧
    (processParts ps s).1.currentTutorTranscription = s.currentTutorTranscription ∧
    (processParts ps s).1.displayUserTranscription = s.displayUserTranscription ∧
    (processParts ps s).1.displayTutorTranscription = s.displayTutorTranscription ∧
    (processParts ps s).1.isSessionActive = s.isSessionActive ∧
    (processParts ps s).1.sessionPromise = s.sessionPromise ∧
    (processParts ps s).1.stream = s.stream ∧
    (processParts ps s).1.inputAudioContext = s.inputAudioContext ∧
    (processParts ps s).1.outputAudioContext = s.outputAudioContext ∧
    (processParts ps s).1.statusMessage = s.statusMessage
  | [], s => by simp [processParts]
  | p :: rest, s => by
    rcases hp : p.inlineData with _ | pay
    · simpa [processParts, hp] using processParts_frame rest s
    · rcases hd : pay.decoded with _ | d
      · simp [processParts, hp, hd]
      · simpa [processParts, hp, hd, addSource] using
          processParts_frame rest
            (addSource d { s with nextStartTime := max s.nextStartTime pay.now })

/-- When a prefix of the part loop completes without a decode failure, the
loop over an extended list continues from the state the prefix produced. -/
theorem processParts_append : ∀ (ps rest : List InlinePart) (s : AppState),
    (processParts ps s).2 = false →
    processParts (ps ++ rest) s = processParts rest (processParts ps s).1
  | [], _, _, _ => rfl
  | p :: ps, rest, s, h => by
    rcases hp : p.inlineData with _ | pay
    · have h' : (processParts ps s).2 = false := by
        simpa [processParts, hp] using h
      simpa [processParts, hp] using processParts_append ps rest s h'
    · rcases hd : pay.decoded with _ | d
      · exact absurd h (by simp [processParts, hp, hd])
      · have h' : (processParts ps
            (addSource d { s with nextStartTime := max s.nextStartTime pay.now })).2
              = false := by
          simpa [processParts, hp, hd] using h
        simpa [processParts, hp, hd] using
          processParts_append ps rest
            (addSource d { s with nextStartTime := max s.nextStartTime pay.now }) h'

/-- Master lemma on the part loop when every payload decodes: the loop
terminates normally, appends one tracked, unstopped source per payload, each
scheduled at or after both the observed current time and the cursor, the
cursor never moves backwards, and consecutive scheduled buffers do not
overlap. -/
theorem processParts_good : ∀ (ps : List InlinePart) (s : AppState),
    AllDecode ps →
    ∃ added : List AudioSource,
      (processParts ps s).2 = false ∧
      (processParts ps s).1.sources = s.sources ++ added ∧
      (processParts ps s).1.audioPlaybackSources
        = s.audioPlaybackSources ++ added.map AudioSource.id ∧
      s.nextStartTime ≤ (processParts ps s).1.nextStartTime ∧
      List.Forall₂ (fun pay src =>
          pay.now ≤ src.startTime ∧ pay.decoded = some src.duration ∧ src.stopped = false)
        (audioPayloads ps) added ∧
      (∀ src ∈ added, s.nextStartTime ≤ src.startTime ∧
          src.startTime + src.duration ≤ (processParts ps s).1.nextStartTime) ∧
      List.Pairwise (fun a b => a.startTime + a.duration ≤ b.startTime) added
  | [], s, _ => by
    refine ⟨[], rfl, by simp [processParts], by simp [processParts],
      le_refl _, ?_, by simp, List.Pairwise.nil⟩
    simp [audioPayloads, processParts]
  | p :: rest, s, hdec => by
    rcases hp : p.inlineData with _ | pay
    · have hpl : audioPayloads (p :: rest) = audioPayloads rest := by
        simp [audioPayloads, hp]
      have hdec' : AllDecode rest := by
        intro q hq
        exact hdec q (by rw [hpl]; exact hq)
      have hstep : processParts (p :: rest) s = processParts rest s := by
        simp [processParts, hp]
      obtain ⟨added, h1, h2, h3, h4, h5, h6, h7⟩ := processParts_good rest s hdec'
      exact ⟨added, by rw [hstep]; exact h1, by rw [hstep]; exact h2,
        by rw [hstep]; exact h3, by rw [hstep]; exact h4, by rw [hpl]; exact h5,
        by rw [hstep]; exact h6, h7⟩
    · have hmem : pay ∈ audioPayloads (p :: rest) := by
        simp [audioPayloads, hp]
      obtain ⟨hsome, h0⟩ := hdec pay hmem
      rcases hd : pay.decoded with _ | d
      · rw [hd] at hsome
        exact absurd hsome (by simp)
      · rw [hd] at h0
        simp only [Option.getD_some] at h0
        have hpl : audioPayloads (p :: rest) = pay :: audioPayloads rest := by
          simp [audioPayloads, hp]

        have hdec' : AllDecode rest := by
          intro q hq
          exact hdec q (by rw [hpl]; exact List.mem_cons_of_mem pay hq)
        have hstep : processParts (p :: rest) s
            = processParts rest
                (addSource d { s with nextStartTime := max s.nextStartTime pay.now }) := by
          simp [processParts, hp, hd]
        obtain ⟨added, h1, h2, h3, h4, h5, h6, h7⟩ :=
          processParts_good rest
            (addSource d { s with nextStartTime := max s.nextStartTime pay.now }) hdec'
        refine ⟨{ id := s.nextSourceId, startTime := max s.nextStartTime pay.now,
                  duration := d, stopped := false } :: added,
          by rw [hstep]; exact h1, ?_, ?_, ?_, ?_, ?_, ?_⟩
        · rw [hstep, h2]
          simp [addSource]
        · rw [hstep, h3]
          simp [addSource]
        · rw [hstep]
          refine le_trans ?_ h4
          simp only [addSource]
          have := le_max_left s.nextStartTime pay.now
          linarith
        · rw [hpl]
          exact List.Forall₂.cons ⟨le_max_right _ _, hd, rfl⟩ h5
        · intro src hsrc
          rw [hstep]
          rcases List.mem_cons.mp hsrc with h | h
          · subst h
            refine ⟨le_max_left _ _, ?_⟩
            refine le_trans ?_ h4
            simp [addSource]
          · obtain ⟨ha, hb⟩ := h6 src h
            refine ⟨le_trans ?_ ha, hb⟩
            simp only [addSource]
            have := le_max_left s.nextStartTime pay.now
            linarith
        · refine List.Pairwise.cons ?_ h7
          intro b hb
          obtain ⟨ha, _⟩ := h6 b hb
          simp only [addSource] at ha
          simpa using ha

/-- Claim C2: scheduling a sequence of decoded audio fragments (no
interruption, no stop) appends one source per fragment; the cursor never
moves backwards, every fragment starts at or after both the observed current
time and the cursor at entry, every scheduled interval ends at or before the
final cursor, and consecutive scheduled buffers never overlap. -/
theorem playback_schedule_no_overlap (ps : List InlinePart) (s : AppState)
    (hdec : AllDecode ps) :
    ∃ added : List AudioSource,
      (processParts ps s).1.sources = s.sources ++ added ∧
      s.nextStartTime ≤ (processParts ps s).1.nextStartTime ∧
      List.Forall₂ (fun pay src => pay.now ≤ src.startTime ∧ pay.decoded = some src.duration)
        (audioPayloads ps) added ∧
      (∀ src ∈ added, s.nextStartTime ≤ src.startTime ∧
          src.startTime + src.duration ≤ (processParts ps s).1.nextStartTime) ∧
      List.Pairwise (fun a b => a.startTime + a.duration ≤ b.startTime) added := by
  obtain ⟨added, _, h2, _, h4, h5, h6, h7⟩ := processParts_good ps s hdec
  exact ⟨added, h2, h4, List.Forall₂.imp (fun a b h => ⟨h.1, h.2.1⟩) h5, h6, h7⟩

/-- Two decodable audio fragments used to instantiate the scheduler claims. -/
def twoFragments : List InlinePart :=
  [{ inlineData := some { now := 1, decoded := some 2 } },
   { inlineData := some { now := 0, decoded := some 3 } }]

/-- Witness for C2 at two concrete fragments from the initial state. -/
theorem playback_schedule_no_overlap_witness :
    AllDecode twoFragments ∧
    (∃ added : List AudioSource,
      (processParts twoFragments initState).1.sources = initState.sources ++ added ∧
      initState.nextStartTime ≤ (processParts twoFragments initState).1.nextStartTime ∧
      List.Forall₂ (fun pay src => pay.now ≤ src.startTime ∧ pay.decoded = some src.duration)
        (audioPayloads twoFragments) added ∧
      (∀ src ∈ added, initState.nextStartTime ≤ src.startTime ∧
          src.startTime + src.duration ≤ (processParts twoFragments initState).1.nextStartTime) ∧
      List.Pairwise (fun a b => a.startTime + a.duration ≤ b.startTime) added) :=
  ⟨by decide, playback_schedule_no_overlap twoFragments initState (by decide)⟩

/-- Claim C3: the `interrupted` branch stops every tracked buffer, empties the
tracked set and zeroes the cursor; an audio fragment arriving afterwards is
scheduled at the observed current time, not at the pre-interruption cursor. -/
theorem interruption_flushes (s : AppState) (pay : AudioPayload) (d : ℚ)
    (hnow : 0 ≤ pay.now) (hdec : pay.decoded = some d) :
    (∀ src ∈ (handleInterrupted s).sources,
        src.id ∈ s.audioPlaybackSources → src.stopped = true) ∧
    (handleInterrupted s).audioPlaybackSources = [] ∧
    (handleInterrupted s).nextStartTime = 0 ∧
    ∃ src : AudioSource,
      (processParts [{ inlineData := some pay }] (handleInterrupted s)).1.sources
        = (handleInterrupted s).sources ++ [src] ∧
      src.startTime = pay.now := by
  refine ⟨?_, rfl, rfl, ?_⟩
  · intro src hsrc hid
    simp only [handleInterrupted, stopTracked, List.mem_map] at hsrc
    obtain ⟨a, ha, rfl⟩ := hsrc
    by_cases h : a.id ∈ s.audioPlaybackSources
    · simp [h]
    · simp only [h, if_false] at hid ⊢
  · refine ⟨{ id := s.nextSourceId, startTime := max 0 pay.now,
              duration := d, stopped := false }, ?_, max_eq_right hnow⟩
    simp [processParts, hdec, addSource, handleInterrupted]

/-- A state with three undisturbed buffers playing, as after three audio
fragments of duration one arrived in an active session. -/
def playing3State : AppState :=
  { initState with
    isSessionActive := true
    ai := some ()
    sessionPromise := some 0
    inputAudioContext := some CtxState.running
    outputAudioContext := some CtxState.running
    sources := [{ id := 0, startTime := 0, duration := 1, stopped := false },
                { id := 1, startTime := 1, duration := 1, stopped := false },
                { id := 2, startTime := 2, duration := 1, stopped := false }]
    audioPlaybackSources := [0, 1, 2]
    nextStartTime := 3
    nextSourceId := 3 }

/-- Witness for C3: the spec scenario — three buffers in flight, then an
interruption; a later fragment observed at time 4 starts at 4. -/
theorem interruption_flushes_witness :
    ((0 : ℚ) ≤ ({ now := 4, decoded := some 1 } : AudioPayload).now ∧
     ({ now := 4, decoded := some 1 } : AudioPayload).decoded = some 1) ∧
    ((∀ src ∈ (handleInterrupted playing3State).sources,
        src.id ∈ playing3State.audioPlaybackSources → src.stopped = true) ∧
     (handleInterrupted playing3State).audioPlaybackSources = [] ∧
     (handleInterrupted playing3State).nextStartTime = 0 ∧
     ∃ src : AudioSource,
       (processParts [{ inlineData := some { now := 4, decoded := some 1 } }]
           (handleInterrupted playing3State)).1.sources
         = (handleInterrupted playing3State).sources ++ [src] ∧
       src.startTime = ({ now := 4, decoded := some 1 } : AudioPayload).now) :=
  ⟨⟨by decide, rfl⟩,
   interruption_flushes playing3State { now := 4, decoded := some 1 } 1 (by decide) rfl⟩

/-- The transcript phase of `onmessage` never touches playback, lifecycle or
resource state. -/
theorem handleTranscripts_frame (m : ServerMessage) (s : AppState) :
    (handleTranscripts m s).sources = s.sources ∧
    (handleTranscripts m s).audioPlaybackSources = s.audioPlaybackSources ∧
    (handleTranscripts m s).nextStartTime = s.nextStartTime ∧
    (handleTranscripts m s).nextSourceId = s.nextSourceId ∧
    (handleTranscripts m s).isSessionActive = s.isSessionActive ∧
    (handleTranscripts m s).sessionPromise = s.sessionPromise ∧
    (handleTranscripts m s).stream = s.stream ∧
    (handleTranscripts m s).inputAudioContext = s.inputAudioContext ∧
    (handleTranscripts m s).outputAudioContext = s.outputAudioContext ∧
    (handleTranscripts m s).statusMessage = s.statusMessage := by
  rcases h1 : m.inputTranscription with _ | t1 <;>
    rcases h2 : m.outputTranscription with _ | t2 <;>
      cases h3 : m.turnComplete <;>
        simp [handleTranscripts, h1, h2, h3, appendUserFragment, appendTutorFragment,
          handleTurnComplete]

/-- A message whose first audio fragment fails to decode (observed current
time 5) and whose second fragment would decode fine. -/
def decodeFailMsg : ServerMessage :=
  { inputTranscription := none, outputTranscription := none, turnComplete := false,
    parts := some [{ inlineData := some { now := 5, decoded := none } },
                   { inlineData := some { now := 5, decoded := some 1 } }],
    interrupted := false }

/-- Counterexample to C5 as stated: on a decode failure the cursor is NOT
unchanged — it was already raised to the observed current time before the
decode — and the decodable fragment after the failing one is NOT processed
(no source is ever created for it: the rejected `await` aborts the loop). -/
theorem decode_failure_not_isolated :
    (onmessage decodeFailMsg initState).nextStartTime ≠ initState.nextStartTime ∧
    (onmessage decodeFailMsg initState).sources = [] ∧
    (onmessage decodeFailMsg initState).audioPlaybackSources = [] := by decide

/-- Claim C5 (amended): on a fragment whose payload fails to decode, the
handler drops that fragment and the session continues — the session-active
flag, session handle, stream and audio contexts are untouched and later
message events are handled by a fresh `onmessage` run — but the cursor has
already been raised to the observed current time, and the remaining fragments
of the same message event (and its `interrupted` check) are skipped: exactly
the fragments before the failing one are scheduled. -/
theorem decode_failure_drops_message_tail (s : AppState) (m : ServerMessage)
    (pre post : List InlinePart) (pay : AudioPayload)
    (hm : m.parts = some (pre ++ { inlineData := some pay } :: post))
    (hfail : pay.decoded = none)
    (hpre : AllDecode pre) :
    (onmessage m s).isSessionActive = s.isSessionActive ∧
    (onmessage m s).sessionPromise = s.sessionPromise ∧
    (onmessage m s).stream = s.stream ∧
    (onmessage m s).inputAudioContext = s.inputAudioContext ∧
    (onmessage m s).outputAudioContext = s.outputAudioContext ∧
    (onmessage m s).sources.length = s.sources.length + (audioPayloads pre).length ∧
    (onmessage m s).audioPlaybackSources.length
      = s.audioPlaybackSources.length + (audioPayloads pre).length ∧
    pay.now ≤ (onmessage m s).nextStartTime := by
  obtain ⟨tf1, tf2, tf3, tf4, tf5, tf6, tf7, tf8, tf9, tf10⟩ := handleTranscripts_frame m s
  obtain ⟨added, g1, g2, g3, g4, g5, g6, g7⟩ :=
    processParts_good pre (handleTranscripts m s) hpre
  have hlen : (audioPayloads pre).length = added.length := List.Forall₂.length_eq g5
  have habort : processParts (pre ++ { inlineData := some pay } :: post)
        (handleTranscripts m s)
      = ({ (processParts pre (handleTranscripts m s)).1 with
            nextStartTime :=
              max (processParts pre (handleTranscripts m s)).1.nextStartTime pay.now },
         true) := by
    rw [processParts_append pre _ (handleTranscripts m s) g1]
    simp [processParts, hfail]
  have hres : onmessage m s
      = { (processParts pre (handleTranscripts m s)).1 with
            nextStartTime :=
              max (processParts pre (handleTranscripts m s)).1.nextStartTime pay.now } := by
    unfold onmessage
    rw [hm]
    simp only [Option.getD_some, habort, if_true]
  obtain ⟨pf1, pf2, pf3, pf4, pf5, pf6, pf7, pf8, pf9, pf10, pf11⟩ :=
    processParts_frame pre (handleTranscripts m s)
  rw [hres]
  refine ⟨?_, ?_, ?_, ?_, ?_, ?_, ?_, le_max_right _ _⟩
  · show (processParts pre (handleTranscripts m s)).1.isSessionActive = s.isSessionActive
    rw [pf6, tf5]
  · show (processParts pre (handleTranscripts m s)).1.sessionPromise = s.sessionPromise
    rw [pf7, tf6]
  · show (processParts pre (handleTranscripts m s)).1.stream = s.stream
    rw [pf8, tf7]
  · show (processParts pre (handleTranscripts m s)).1.inputAudioContext = s.inputAudioContext
    rw [pf9, tf8]
  · show (processParts pre (handleTranscripts m s)).1.outputAudioContext = s.outputAudioContext
    rw [pf10, tf9]
  · show (processParts pre (handleTranscripts m s)).1.sources.length
      = s.sources.length + (audioPayloads pre).length
    rw [g2, tf1, List.length_append, hlen]
  · show (processParts pre (handleTranscripts m s)).1.audioPlaybackSources.length
      = s.audioPlaybackSources.length + (audioPayloads pre).length
    rw [g3, tf2, List.length_append, List.length_map, hlen]

/-- The decodable fragments before and after a failing one, used for the C5
witness. -/
def preFragment : List InlinePart := [{ inlineData := some { now := 0, decoded := some 1 } }]

def postFragment : List InlinePart := [{ inlineData := some { now := 3, decoded := some 1 } }]

def failPayload : AudioPayload := { now := 2, decoded := none }

def failTailMsg : ServerMessage :=
  { inputTranscription := none, outputTranscription := none, turnComplete := false,
    parts := some (preFragment ++ { inlineData := some failPayload } :: postFragment),
    interrupted := false }

/-- Witness for the amended C5 at a concrete three-fragment message whose
middle fragment fails to decode. -/
theorem decode_failure_drops_message_tail_witness :
    (failTailMsg.parts = some (preFragment ++ { inlineData := some failPayload } :: postFragment) ∧
     failPayload.decoded = none ∧ AllDecode preFragment) ∧
    ((onmessage failTailMsg initState).isSessionActive = initState.isSessionActive ∧
     (onmessage failTailMsg initState).sessionPromise = initState.sessionPromise ∧
     (onmessage failTailMsg initState).stream = initState.stream ∧
     (onmessage failTailMsg initState).inputAudioContext = initState.inputAudioContext ∧
     (onmessage failTailMsg initState).outputAudioContext = initState.outputAudioContext ∧
     (onmessage failTailMsg initState).sources.length
       = initState.sources.length + (audioPayloads preFragment).length ∧
     (onmessage failTailMsg initState).audioPlaybackSources.length
       = initState.audioPlaybackSources.length + (audioPayloads preFragment).length ∧
     failPayload.now ≤ (onmessage failTailMsg initState).nextStartTime) :=
  ⟨⟨rfl, rfl, by decide⟩,
   decode_failure_drops_message_tail initState failTailMsg preFragment postFragment
     failPayload rfl rfl (by decide)⟩

end Coach
